import Mathlib

/-!
Verification of the `generic_cmake` building block
(`src/hpccm/building_blocks/generic_cmake.py`).

The orchestrator (`__init__`, `__setup`, `__instructions`, `runtime`) is
translated directly from the source.  The mixin templates
(`hpccm.templates.downloader`, `CMakeBuild`, `envvars`, `ldconfig`, `rm`) and
the instruction primitives (`comment`, `shell`, `environment`, `copy`) are not
under `src/`; the definitions for them below are modelled from the spec and
say so in their doc comments.  Python dictionaries are represented as
association lists; a dictionary can never hold two bindings for the same key,
which theorems express as a `Nodup` hypothesis on the keys where it matters.
-/

/-- Suffix test on the underlying character lists (the core `String`
primitives do not reduce inside the kernel, so paths are handled through
`String.data`). -/
def strEndsWith (s suf : String) : Bool :=
  s.data.drop (s.data.length - suf.data.length) == suf.data

/-- Drop the last `n` characters of a string. -/
def strDropRight (s : String) (n : Nat) : String :=
  String.mk (s.data.take (s.data.length - n))

/-- Path helper mirroring `posixpath.isabs`: a POSIX path is absolute iff it
starts with a slash. -/
def isabs (s : String) : Bool :=
  match s.data with
  | [] => false
  | c :: _ => c == '/'

/-- Path helper mirroring the two-argument form of `posixpath.join`: the second
component wins if absolute, otherwise it is attached after a slash. -/
def pjoin (a b : String) : String :=
  if isabs b then b
  else if a = "" then b
  else if strEndsWith a "/" then a ++ b
  else a ++ "/" ++ b

/-- Characters of the final path segment: the accumulator is reset at every
slash. -/
def basenameAux (acc : List Char) : List Char → List Char
  | [] => acc
  | c :: cs => if c == '/' then basenameAux [] cs else basenameAux (acc ++ [c]) cs

/-- Path helper mirroring `posixpath.basename`: everything after the last
slash. -/
def basename (s : String) : String :=
  String.mk (basenameAux [] s.data)

/-- Join strings with single spaces (a reducible stand-in for
`' '.join`). -/
def interSpace : List String → String
  | [] => ""
  | [x] => x
  | x :: y :: rest => x ++ " " ++ interSpace (y :: rest)

/-- Drop the first matching suffix from the candidate list, if any. -/
def dropFirstSuffix (s : String) : List String → String
  | [] => s
  | suf :: rest =>
    if strEndsWith s suf then strDropRight s suf.data.length else dropFirstSuffix s rest

/-- Modelled from the spec: the downloader derives the default source directory
name from the archive basename, so the archive extension is stripped. -/
def stripArchiveSuffix (s : String) : String :=
  dropFirstSuffix s [".tar.gz", ".tar.bz2", ".tar.xz", ".tgz", ".tbz", ".txz", ".tar", ".zip", ".gz", ".bz2", ".xz"]

/-- Modelled from the spec: a git repository checkout directory is the
repository basename without a trailing `.git`. -/
def stripGitSuffix (s : String) : String :=
  if strEndsWith s ".git" then strDropRight s 4 else s

/-- The complete configuration surface of `generic_cmake.__init__`
(src lines 163-191).  Python `kwargs.get` defaults become field defaults.
The source's `prefix` attribute is named `prefixPath` here because `prefix`
is a Lean keyword; `devel_environment` keeps its keyword-argument name
(the source stores it as `environment_variables`), and likewise
`runtime_environment`.  Dictionaries are association lists in insertion
order. -/
structure Config where
  url : Option String := none
  repository : Option String := none
  branch : Option String := none
  commit : Option String := none
  recursive : Bool := false
  build_directory : String := "build"
  build_environment : List (String × String) := []
  check : Bool := false
  cmake_opts : List String := []
  directory : Option String := none
  devel_environment : List (String × String) := []
  install : Bool := true
  ldconfig : Bool := false
  libdir : String := "lib"
  make : Bool := true
  postinstall : List String := []
  preconfigure : List String := []
  prefixPath : String := "/usr/local"
  runtime_environment : List (String × String) := []
  toolchain : List String := []
deriving Repr, DecidableEq

/-- The fixed temporary working directory, `self.__wd = '/var/tmp'`
(src line 185). -/
def wd : String := "/var/tmp"

/-- Modelled from the spec: the downloader template is not under `src/`; per
spec section 4.1 it reduces the archive URL or repository descriptor to one
fetch shell command (transport details are out of scope, so the command is a
single opaque string naming the source). -/
def download_step (c : Config) : String :=
  match c.url with
  | some u => "fetch " ++ u
  | none =>
    match c.repository with
    | some r => "fetch " ++ r
    | none => "fetch"

/-- The resolved source directory.  The `directory` branch is translated from
src lines 212-218 (absolute directories are kept, relative ones are joined
under the working root).  The defaulting branch is modelled from the spec:
the downloader template (not under `src/`) derives the directory from the
archive or repository basename under the working root. -/
def src_directory (c : Config) : String :=
  match c.directory with
  | some d => if isabs d then d else pjoin wd d
  | none =>
    match c.url with
    | some u => pjoin wd (stripArchiveSuffix (basename u))
    | none =>
      match c.repository with
      | some r => pjoin wd (stripGitSuffix (basename r))
      | none => wd

/-- Items of an association-list mapping in lexicographically sorted key
order, mirroring Python's `sorted(dict.items())` on a dictionary (whose keys
are distinct). -/
def sortedItems (m : List (String × String)) : List (String × String) :=
  m.insertionSort (fun a b => a.1 ≤ b.1)

/-- The `KEY=VALUE` assignment strings built from `build_environment` in
sorted key order (src lines 228-231).  The source guards the loop with a
truthiness test on the dictionary, which is equivalent to mapping over the
sorted items unconditionally. -/
def envAssignments (m : List (String × String)) : List String :=
  (sortedItems m).map (fun kv => kv.1 ++ "=" ++ kv.2)

/-- Modelled from the spec: `CMakeBuild.configure_step` is not under `src/`;
per spec section 4.2 it returns one command string that changes/creates the
build directory (an empty build directory means an in-source build), prefixes
the invocation with the given `KEY=VALUE` assignments exactly in the order
given when the list is non-empty, and passes the toolchain selections and the
raw option list through verbatim and in order. -/
def configure_step (bd dir : String) (env : List String) (tc opts : List String) : String :=
  "mkdir -p " ++ (if bd = "" then dir else pjoin dir bd)
    ++ " && cd " ++ (if bd = "" then dir else pjoin dir bd) ++ " && "
    ++ (if env.isEmpty then "" else interSpace env ++ " ")
    ++ interSpace (("cmake" :: tc ++ opts) ++ [dir])

/-- Modelled from the spec: `CMakeBuild.build_step` is not under `src/`; per
spec section 4.2, no target means the default build action and a target names
the corresponding build-system invocation. -/
def build_step (target : Option String) : String :=
  match target with
  | none => "cmake --build ."
  | some t => "cmake --build . --target " ++ t

/-- Modelled from the spec: the `ldconfig` template's `ldcache_step` is not
under `src/`; per spec section 4.3 it is a pure string derivation of one step
registering the directory with the dynamic linker cache. -/
def ldcache_step (dir : String) : String :=
  "echo " ++ dir ++ " >> /etc/ld.so.conf.d/hpccm.conf && ldconfig"

/-- Modelled from the spec: the `rm` template's `cleanup_step` is not under
`src/`; per spec section 4.5 it batches all given paths, in the order
collected, into a single removal command. -/
def cleanup_step (items : List String) : String :=
  "rm -rf " ++ interSpace items

/-- Modelled from the spec: the `envvars` template's `environment_step` is not
under `src/`; per spec section 4.4 it returns the devel mapping by default and
the runtime mapping when `runtime=True`, the two mappings never being merged,
rendered in sorted key order per the determinism design note. -/
def environment_step (c : Config) (rt : Bool) : List (String × String) :=
  if rt then sortedItems c.runtime_environment else sortedItems c.devel_environment

/-- The cleanup path list (src lines 260-267): always the source directory;
plus the downloaded archive file under the working root when the source is a
URL; plus the build directory when it is non-empty and absolute. -/
def removeList (c : Config) : List String :=
  [src_directory c]
    ++ (match c.url with
        | some u => [pjoin wd (basename u)]
        | none => [])
    ++ (if c.build_directory ≠ "" ∧ isabs c.build_directory then [c.build_directory] else [])

/-- `generic_cmake.__setup` (src lines 204-268): the series of shell commands,
translated statement by statement; each `let commands := ...` rebinding is one
append to `self.__commands`. -/
def setup (c : Config) : List String :=
  let commands : List String := [download_step c]
  let commands := if c.preconfigure.isEmpty then commands
    else commands ++ ("cd " ++ src_directory c) :: c.preconfigure
  let commands := commands ++ [configure_step c.build_directory (src_directory c)
    (envAssignments c.build_environment) c.toolchain c.cmake_opts]
  let commands := if c.make then commands ++ [build_step none] else commands
  let commands := if c.check then commands ++ [build_step (some "check")] else commands
  let commands := if c.install then commands ++ [build_step (some "install")] else commands
  let commands := if c.postinstall.isEmpty then commands
    else commands ++ ("cd " ++ c.prefixPath) :: c.postinstall
  let commands := if c.ldconfig then commands ++ [ldcache_step (pjoin c.prefixPath c.libdir)]
    else commands
  commands ++ [cleanup_step (removeList c)]

/-- Container instructions; the constructors mirror the external primitives
`comment`, `shell`, `environment` and `copy` the core constructs (spec
section 6). -/
inductive Instr where
  | comment (text : String)
  | shell (commands : List String)
  | env (vars : List (String × String))
  | copy (fromStage : String) (src : String) (dest : String)
deriving Repr, DecidableEq

/-- `generic_cmake.__instructions` (src lines 193-202): a comment naming the
URL (or else the repository), the shell instruction holding the command list,
and an environment instruction from the devel mapping. -/
def instructions (c : Config) : List Instr :=
  (match c.url with
   | some u => [Instr.comment u]
   | none =>
     match c.repository with
     | some r => [Instr.comment r]
     | none => [])
    ++ [Instr.shell (setup c)]
    ++ [Instr.env (environment_step c false)]

/-- `generic_cmake.runtime` (src lines 271-299): when a prefix is set, a
comment naming the source, a copy of the prefix from the previous stage to
the same path, the linker-cache step when `ldconfig` is set, and the runtime
environment when non-empty; with no prefix, nothing. -/
def runtime (c : Config) (fromStage : String) : List Instr :=
  if c.prefixPath ≠ "" then
    (match c.url with
     | some u => [Instr.comment u]
     | none =>
       match c.repository with
       | some r => [Instr.comment r]
       | none => [])
      ++ [Instr.copy fromStage c.prefixPath c.prefixPath]
      ++ (if c.ldconfig then [Instr.shell [ldcache_step (pjoin c.prefixPath c.libdir)]] else [])
      ++ (if c.runtime_environment.isEmpty then []
          else [Instr.env (environment_step c true)])
  else []

/-- The construction-time error taxonomy of spec section 7.  Only the
configuration error is ever constructed: no unsupported-combination check
exists anywhere in the source. -/
inductive BuildError where
  | configurationError (msg : String)
deriving Repr, DecidableEq

/-- Modelled from the spec: the downloader template's validation is not under
`src/`; per spec sections 4.1 and 7 it fails with a configuration error when
neither or both of archive/repository are given, or when branch, commit or
recursive are given without a repository. -/
def validate (c : Config) : Except BuildError Unit :=
  if c.url.isSome ∧ c.repository.isSome then
    Except.error (BuildError.configurationError "both url and repository given")
  else if c.url.isNone ∧ c.repository.isNone then
    Except.error (BuildError.configurationError "neither url nor repository given")
  else if (c.branch.isSome ∨ c.commit.isSome ∨ c.recursive) ∧ c.repository.isNone then
    Except.error (BuildError.configurationError "git arguments require a repository")
  else Except.ok ()

/-- Construction: validation happens first (inside the downloader mixin's
initializer), and only then are the commands and instructions derived
(src lines 163-191); on a validation error nothing is emitted. -/
def construct (c : Config) : Except BuildError (List Instr) :=
  match validate c with
  | Except.error e => Except.error e
  | Except.ok _ => Except.ok (instructions c)

/-- The comment text naming the source: the URL if given, otherwise the
repository (src lines 196-199 and 285-288). -/
def sourceDesc (c : Config) : String :=
  match c.url with
  | some u => u
  | none =>
    match c.repository with
    | some r => r
    | none => ""

/-- The results of emitting the build stage `n` times in a row. -/
def emissions (c : Config) (n : Nat) : List (List Instr) :=
  (List.range n).map (fun _ => instructions c)

/-- The results of calling the runtime projection `n` times in a row. -/
def runtimeCalls (c : Config) (fromStage : String) (n : Nat) : List (List Instr) :=
  (List.range n).map (fun _ => runtime c fromStage)

instance : IsTotal (String × String) (fun a b => a.1 ≤ b.1) :=
  ⟨fun a b => le_total a.1 b.1⟩

instance : IsTrans (String × String) (fun a b => a.1 ≤ b.1) :=
  ⟨fun _ _ _ h1 h2 => le_trans h1 h2⟩

instance : IsAntisymm (String × String) (fun a b => a.1 < b.1) :=
  ⟨fun _ _ h1 h2 => absurd (lt_trans h1 h2) (lt_irrefl _)⟩

/-- Example: an archive-sourced specification with `ldconfig` requested. -/
def cfgArchive : Config :=
  { url := some "https://x/y/pkg-1.0.tar.gz", prefixPath := "/usr/local/pkg",
    ldconfig := true, libdir := "lib64" }

/-- Example: a repository-sourced specification with hooks on both sides of
the build. -/
def cfgHooks : Config :=
  { repository := some "https://github.com/o/p.git", prefixPath := "/usr/local/p",
    preconfigure := ["./autogen.sh"], postinstall := ["rm -rf share/doc"] }

/-- Example: a specification given both a URL and a repository. -/
def cfgBoth : Config :=
  { url := some "https://x/a.tar.gz", repository := some "https://g/a.git" }

/-- Example: a repository-sourced specification with no install prefix. -/
def cfgNoPrefix : Config :=
  { repository := some "https://g/a.git", prefixPath := "" }

/-- Example: `ldconfig` requested with an empty `libdir`, the closest
constructible reading of an absent linker-cache prerequisite. -/
def cfgEmptyLibdir : Config :=
  { repository := some "https://g/r.git", ldconfig := true, libdir := "" }

/-- Example: `ldconfig` requested with the defaulted `libdir`. -/
def cfgLd : Config :=
  { repository := some "https://g/r.git", ldconfig := true }

/-- Example: every optional step disabled. -/
def cfgBare : Config :=
  { url := some "https://x/p-1.tar.gz", make := false, install := false }

/-- Helper: `__setup` flattened into its nine spec-order segments. -/
theorem setup_segments (c : Config) :
    setup c =
      [download_step c]
        ++ (if c.preconfigure.isEmpty then [] else ("cd " ++ src_directory c) :: c.preconfigure)
        ++ [configure_step c.build_directory (src_directory c)
              (envAssignments c.build_environment) c.toolchain c.cmake_opts]
        ++ (if c.make then [build_step none] else [])
        ++ (if c.check then [build_step (some "check")] else [])
        ++ (if c.install then [build_step (some "install")] else [])
        ++ (if c.postinstall.isEmpty then [] else ("cd " ++ c.prefixPath) :: c.postinstall)
        ++ (if c.ldconfig then [ldcache_step (pjoin c.prefixPath c.libdir)] else [])
        ++ [cleanup_step (removeList c)] := by
  unfold setup
  split_ifs <;> simp

/-- Helper: the command list always ends with the cleanup command. -/
theorem setup_getLast (c : Config) :
    (setup c).getLast? = some (cleanup_step (removeList c)) := by
  unfold setup
  exact List.getLast?_concat _

/-- Helper: the command list is never empty. -/
theorem setup_ne_nil (c : Config) : setup c ≠ [] := by
  unfold setup
  simp

/-- C1: for every build specification the build-stage command list appears in
the one fixed total order fetch, (cd + preconfigure), configure, make, check,
install, (cd + postinstall), ldconfig, cleanup, each optional segment present
exactly when its flag or list enables it; since this holds for every
configuration value, no configuration reorders the steps. -/
theorem c1_step_order (c : Config) :
    setup c =
      [download_step c]
        ++ (if c.preconfigure.isEmpty then [] else ("cd " ++ src_directory c) :: c.preconfigure)
        ++ [configure_step c.build_directory (src_directory c)
              (envAssignments c.build_environment) c.toolchain c.cmake_opts]
        ++ (if c.make then [build_step none] else [])
        ++ (if c.check then [build_step (some "check")] else [])
        ++ (if c.install then [build_step (some "install")] else [])
        ++ (if c.postinstall.isEmpty then [] else ("cd " ++ c.prefixPath) :: c.postinstall)
        ++ (if c.ldconfig then [ldcache_step (pjoin c.prefixPath c.libdir)] else [])
        ++ [cleanup_step (removeList c)] :=
  setup_segments c

/-- C3: the cleanup step removes the source directory first and always, plus
the downloaded archive file under the working root exactly when the source is
an archive URL, plus the build directory exactly when it is non-empty and
absolute; when the build directory is relative the path list is exactly the
source directory plus the optional archive file. -/
theorem c3_cleanup_paths (c : Config) :
    removeList c =
      src_directory c ::
        ((match c.url with
          | some u => [pjoin wd (basename u)]
          | none => [])
          ++ (if c.build_directory ≠ "" ∧ isabs c.build_directory then [c.build_directory]
              else []))
      ∧ (setup c).getLast? = some (cleanup_step (removeList c))
      ∧ (isabs c.build_directory = false →
          removeList c =
            src_directory c ::
              (match c.url with
               | some u => [pjoin wd (basename u)]
               | none => [])) := by
  refine ⟨by simp [removeList], setup_getLast c, fun h => ?_⟩
  simp [removeList, h]

/-- C3 witness: with a relative build directory and an archive source the
cleanup path list is exactly the source directory and the archive file. -/
theorem c3_cleanup_paths_witness :
    isabs cfgArchive.build_directory = false
      ∧ removeList cfgArchive = ["/var/tmp/pkg-1.0", "/var/tmp/pkg-1.0.tar.gz"] := by
  refine ⟨by decide, ((c3_cleanup_paths cfgArchive).2.2 (by decide)).trans (by decide)⟩

/-- C7: with non-empty `preconfigure` the command list contains a
change-directory to the resolved source directory immediately followed by the
preconfigure commands, and with non-empty `postinstall` a change-directory to
the install prefix immediately followed by the postinstall commands; the
first context is the source directory and the second the prefix, never the
other way around. -/
theorem c7_cd_contexts (c : Config) :
    (c.preconfigure ≠ [] →
      ∃ a b, setup c = a ++ (("cd " ++ src_directory c) :: c.preconfigure) ++ b)
      ∧ (c.postinstall ≠ [] →
        ∃ a b, setup c = a ++ (("cd " ++ c.prefixPath) :: c.postinstall) ++ b) := by
  constructor
  · intro h
    refine ⟨[download_step c], ?_, ?_⟩
    · exact [configure_step c.build_directory (src_directory c)
          (envAssignments c.build_environment) c.toolchain c.cmake_opts]
        ++ (if c.make then [build_step none] else [])
        ++ (if c.check then [build_step (some "check")] else [])
        ++ (if c.install then [build_step (some "install")] else [])
        ++ (if c.postinstall.isEmpty then [] else ("cd " ++ c.prefixPath) :: c.postinstall)
        ++ (if c.ldconfig then [ldcache_step (pjoin c.prefixPath c.libdir)] else [])
        ++ [cleanup_step (removeList c)]
    · rw [setup_segments c]
      have hpe : c.preconfigure.isEmpty = false := by
        rcases hp : c.preconfigure with _ | ⟨x, xs⟩
        · exact absurd hp h
        · rfl
      simp [hpe]
  · intro h
    refine ⟨[download_step c]
        ++ (if c.preconfigure.isEmpty then [] else ("cd " ++ src_directory c) :: c.preconfigure)
        ++ [configure_step c.build_directory (src_directory c)
              (envAssignments c.build_environment) c.toolchain c.cmake_opts]
        ++ (if c.make then [build_step none] else [])
        ++ (if c.check then [build_step (some "check")] else [])
        ++ (if c.install then [build_step (some "install")] else []), ?_, ?_⟩
    · exact (if c.ldconfig then [ldcache_step (pjoin c.prefixPath c.libdir)] else [])
        ++ [cleanup_step (removeList c)]
    · rw [setup_segments c]
      have hpe : c.postinstall.isEmpty = false := by
        rcases hp : c.postinstall with _ | ⟨x, xs⟩
        · exact absurd hp h
        · rfl
      simp [hpe]

/-- C7 witness: the two change-directory contexts on a specification with
both hooks. -/
theorem c7_cd_contexts_witness :
    cfgHooks.preconfigure ≠ []
      ∧ (∃ a b, setup cfgHooks
          = a ++ (("cd " ++ src_directory cfgHooks) :: cfgHooks.preconfigure) ++ b) :=
  ⟨by decide, (c7_cd_contexts cfgHooks).1 (by decide)⟩

/-- C10: with `make`, `check`, `install`, `ldconfig` disabled and empty hook
lists the command list is exactly fetch, configure, cleanup; and for every
specification the command list is non-empty with cleanup as its last
element. -/
theorem c10_minimal_pipeline (c : Config) (hm : c.make = false) (hc : c.check = false)
    (hi : c.install = false) (hl : c.ldconfig = false)
    (hpre : c.preconfigure = []) (hpost : c.postinstall = []) :
    setup c =
      [download_step c,
        configure_step c.build_directory (src_directory c)
          (envAssignments c.build_environment) c.toolchain c.cmake_opts,
        cleanup_step (removeList c)]
      ∧ ∀ c' : Config,
          setup c' ≠ [] ∧ (setup c').getLast? = some (cleanup_step (removeList c')) := by
  refine ⟨?_, fun c' => ⟨setup_ne_nil c', setup_getLast c'⟩⟩
  rw [setup_segments c]
  simp [hm, hc, hi, hl, hpre, hpost]

/-- C10 witness: the three-command pipeline of the bare specification. -/
theorem c10_minimal_pipeline_witness :
    cfgBare.make = false
      ∧ setup cfgBare =
        [download_step cfgBare,
          configure_step cfgBare.build_directory (src_directory cfgBare)
            (envAssignments cfgBare.build_environment) cfgBare.toolchain cfgBare.cmake_opts,
          cleanup_step (removeList cfgBare)] :=
  ⟨rfl, (c10_minimal_pipeline cfgBare rfl rfl rfl rfl rfl rfl).1⟩

/-- Helper: sorting is a permutation of the mapping's items. -/
theorem sortedItems_perm (m : List (String × String)) : (sortedItems m).Perm m :=
  List.perm_insertionSort _ m

/-- Helper: the sorted items are sorted by key. -/
theorem sortedItems_sorted (m : List (String × String)) :
    List.Sorted (fun a b : String × String => a.1 ≤ b.1) (sortedItems m) :=
  List.sorted_insertionSort _ m

/-- Helper: with distinct keys the sorted items are strictly sorted by key. -/
theorem sortedItems_sorted_lt (m : List (String × String))
    (h : (m.map Prod.fst).Nodup) :
    List.Sorted (fun a b : String × String => a.1 < b.1) (sortedItems m) := by
  have hnd : ((sortedItems m).map Prod.fst).Nodup :=
    (((sortedItems_perm m).map Prod.fst).nodup_iff).mpr h
  have hne : (sortedItems m).Pairwise (fun a b : String × String => a.1 ≠ b.1) :=
    List.pairwise_map.mp hnd
  exact ((sortedItems_sorted m).and hne).imp (fun hab => lt_of_le_of_ne hab.1 hab.2)

/-- Helper: sorting is invariant under reordering of a mapping with distinct
keys. -/
theorem sortedItems_eq_of_perm (m₁ m₂ : List (String × String))
    (hp : m₁.Perm m₂) (h : (m₁.map Prod.fst).Nodup) :
    sortedItems m₁ = sortedItems m₂ := by
  have h₂ : (m₂.map Prod.fst).Nodup := ((hp.map Prod.fst).nodup_iff).mp h
  exact List.eq_of_perm_of_sorted
    ((sortedItems_perm m₁).trans (hp.trans (sortedItems_perm m₂).symm))
    (sortedItems_sorted_lt m₁ h) (sortedItems_sorted_lt m₂ h₂)

/-- C4: the `KEY=VALUE` assignments prefixed to the configure command come
from the mapping in lexicographically sorted key order, so the whole emitted
command list is identical for any two insertion orders of the same mapping;
and an empty mapping contributes no assignments and no prefix. -/
theorem c4_sorted_build_environment (c : Config) (m₁ m₂ : List (String × String))
    (hp : m₁.Perm m₂) (h : (m₁.map Prod.fst).Nodup) :
    setup { c with build_environment := m₁ } = setup { c with build_environment := m₂ }
      ∧ List.Sorted (fun a b : String × String => a.1 ≤ b.1)
          (sortedItems c.build_environment)
      ∧ envAssignments [] = []
      ∧ ∀ bd dir tc opts, configure_step bd dir [] tc opts =
          "mkdir -p " ++ (if bd = "" then dir else pjoin dir bd)
            ++ " && cd " ++ (if bd = "" then dir else pjoin dir bd) ++ " && "
            ++ interSpace (("cmake" :: tc ++ opts) ++ [dir]) := by
  refine ⟨?_, sortedItems_sorted _, rfl, fun bd dir tc opts => ?_⟩
  · have key : envAssignments m₁ = envAssignments m₂ := by
      unfold envAssignments
      rw [sortedItems_eq_of_perm m₁ m₂ hp h]
    unfold setup removeList src_directory download_step
    simp only [key]
  · unfold configure_step
    simp [interSpace]

/-- C4 witness: two insertion orders of the same two-key mapping yield the
same command list. -/
theorem c4_sorted_build_environment_witness :
    [(("B" : String), ("2" : String)), (("A" : String), ("1" : String))].Perm
        [(("A" : String), ("1" : String)), (("B" : String), ("2" : String))]
      ∧ setup { cfgLd with build_environment := [("B", "2"), ("A", "1")] }
          = setup { cfgLd with build_environment := [("A", "1"), ("B", "2")] } :=
  ⟨List.Perm.swap _ _ _,
    (c4_sorted_build_environment cfgLd [("B", "2"), ("A", "1")] [("A", "1"), ("B", "2")]
      (List.Perm.swap _ _ _) (by decide)).1⟩

/-- C2: with a non-empty prefix the runtime projection is exactly a comment
naming the source, a copy of the prefix from the given stage to the same
path, the linker-cache step iff `ldconfig`, and a runtime environment export
iff that mapping is non-empty; and it is invariant under any change to
`build_environment`, `preconfigure`, `postinstall`, the option list or the
toolchain. -/
theorem c2_runtime_projection (c : Config) (f : String)
    (hpre : c.prefixPath ≠ "") (hv : validate c = Except.ok ()) :
    runtime c f =
      [Instr.comment (sourceDesc c), Instr.copy f c.prefixPath c.prefixPath]
        ++ (if c.ldconfig then [Instr.shell [ldcache_step (pjoin c.prefixPath c.libdir)]]
            else [])
        ++ (if c.runtime_environment.isEmpty then []
            else [Instr.env (sortedItems c.runtime_environment)])
      ∧ ∀ be pre post opts tc,
          runtime { c with build_environment := be, preconfigure := pre,
                           postinstall := post, cmake_opts := opts, toolchain := tc } f
            = runtime c f := by
  constructor
  · cases hu : c.url with
    | some u => simp [runtime, sourceDesc, hu, hpre, environment_step]
    | none =>
      cases hr : c.repository with
      | some r => simp [runtime, sourceDesc, hu, hr, hpre, environment_step]
      | none => simp [validate, hu, hr] at hv
  · intro be pre post opts tc
    simp [runtime, environment_step]

/-- C2 witness: the runtime projection of the archive example. -/
theorem c2_runtime_projection_witness :
    cfgArchive.prefixPath ≠ ""
      ∧ validate cfgArchive = Except.ok ()
      ∧ runtime cfgArchive "0" =
          [Instr.comment "https://x/y/pkg-1.0.tar.gz",
            Instr.copy "0" "/usr/local/pkg" "/usr/local/pkg",
            Instr.shell [ldcache_step "/usr/local/pkg/lib64"]] := by
  refine ⟨by decide, rfl, ?_⟩
  exact ((c2_runtime_projection cfgArchive "0" (by decide) rfl).1).trans (by decide)

/-- C5: giving both or neither of the archive URL and the repository, or
giving branch, commit or recursive without a repository, makes construction
fail with a configuration error, and then no instruction is produced. -/
theorem c5_construction_validation (c : Config)
    (h : (c.url.isSome ∧ c.repository.isSome)
        ∨ (c.url.isNone ∧ c.repository.isNone)
        ∨ ((c.branch.isSome ∨ c.commit.isSome ∨ c.recursive) ∧ c.repository.isNone)) :
    (∃ msg, construct c = Except.error (BuildError.configurationError msg))
      ∧ ∀ out, construct c ≠ Except.ok out := by
  have hval : ∃ msg, validate c = Except.error (BuildError.configurationError msg) := by
    unfold validate
    split_ifs with h1 h2 h3
    · exact ⟨_, rfl⟩
    · exact ⟨_, rfl⟩
    · exact ⟨_, rfl⟩
    · exfalso
      rcases h with h | h | h
      · exact h1 h
      · exact h2 h
      · exact h3 h
  obtain ⟨msg, hm⟩ := hval
  refine ⟨⟨msg, ?_⟩, ?_⟩
  · unfold construct
    rw [hm]
  · intro out hout
    simp [construct, hm] at hout

/-- C5 witness: both a URL and a repository given. -/
theorem c5_construction_validation_witness :
    (cfgBoth.url.isSome ∧ cfgBoth.repository.isSome)
      ∧ ∃ msg, construct cfgBoth = Except.error (BuildError.configurationError msg) :=
  ⟨⟨rfl, rfl⟩, (c5_construction_validation cfgBoth (Or.inl ⟨rfl, rfl⟩)).1⟩

/-- C6: emission is deterministic; every one of any number of successive
build-stage emissions equals the single derived instruction sequence, every
runtime projection call yields the same result, and in particular two
successive emissions are identical. -/
theorem c6_deterministic_emission (c : Config) (f : String) :
    (∀ n, ∀ e ∈ emissions c n, e = instructions c)
      ∧ (∀ n, ∀ r ∈ runtimeCalls c f n, r = runtime c f)
      ∧ emissions c 2 = [instructions c, instructions c]
      ∧ runtimeCalls c f 2 = [runtime c f, runtime c f] := by
  refine ⟨?_, ?_, rfl, rfl⟩
  · intro n e he
    rcases List.mem_map.mp he with ⟨a, _, hfa⟩
    exact hfa.symm
  · intro n r hr
    rcases List.mem_map.mp hr with ⟨a, _, hfa⟩
    exact hfa.symm

/-- C6 witness: a member of two successive emissions equals the derived
instruction sequence. -/
theorem c6_deterministic_emission_witness :
    instructions cfgLd ∈ emissions cfgLd 2
      ∧ instructions cfgLd = instructions cfgLd :=
  ⟨List.mem_cons_self _ _,
    (c6_deterministic_emission cfgLd "0").1 2 (instructions cfgLd) (List.mem_cons_self _ _)⟩

/-- C8: with an unset or empty prefix the runtime projection emits nothing,
and this is a normal return, not an error. -/
theorem c8_empty_prefix_runtime (c : Config) (f : String) (h : c.prefixPath = "") :
    runtime c f = [] := by
  simp [runtime, h]

/-- C8 witness: the prefixless specification projects to nothing. -/
theorem c8_empty_prefix_runtime_witness :
    cfgNoPrefix.prefixPath = "" ∧ runtime cfgNoPrefix "0" = [] :=
  ⟨rfl, c8_empty_prefix_runtime cfgNoPrefix "0" rfl⟩

/-- C9 counterexample: `ldconfig=true` with an empty `libdir` (the only
constructible form of an absent linker-cache prerequisite) does not raise
anything; construction succeeds and the linker-cache step for the slash-
terminated prefix is still emitted.  No unsupported-combination error exists
in the source. -/
theorem c9_counterexample :
    construct cfgEmptyLibdir = Except.ok (instructions cfgEmptyLibdir)
      ∧ ldcache_step (pjoin cfgEmptyLibdir.prefixPath cfgEmptyLibdir.libdir)
          ∈ setup cfgEmptyLibdir := by
  refine ⟨rfl, ?_⟩
  rw [setup_segments cfgEmptyLibdir]
  simp [cfgEmptyLibdir]

/-- C9 (amended): construction never fails on a flag whose prerequisite is
absent; whenever the source validation passes, construction succeeds, and
with `ldconfig` requested the linker-cache step for `prefix/libdir` (with
`libdir` defaulted to `lib`) is emitted unconditionally. -/
theorem c9_no_unsupported_combination (c : Config) (hv : validate c = Except.ok ()) :
    construct c = Except.ok (instructions c)
      ∧ (c.ldconfig = true → ldcache_step (pjoin c.prefixPath c.libdir) ∈ setup c) := by
  constructor
  · unfold construct
    rw [hv]
  · intro hl
    rw [setup_segments c]
    simp [hl]

/-- C9 witness: a validated specification with `ldconfig` requested
constructs successfully. -/
theorem c9_no_unsupported_combination_witness :
    validate cfgLd = Except.ok ()
      ∧ construct cfgLd = Except.ok (instructions cfgLd) :=
  ⟨rfl, (c9_no_unsupported_combination cfgLd rfl).1⟩
